import Mathlib

/-!
Verification of the configuration module of rusty-bot
(`src/bot/config.rs`): the `Configuration` record with its getters and
setters, its `PartialEq` implementation, and the `ConfigBuilder` builder
pattern with `build()`.

The module only ever stores, copies and compares (`==`) its `f32` fields,
so an `f32` value is modelled by the inductive `F32` below, which records
exactly what IEEE-754 comparison distinguishes: NaN (all NaN bit patterns
collapsed, since they all compare unequal to everything), the negative
zero, a finite value (a rational, with `0` standing for `+0.0`), and the
two infinities.  Strings are modelled by `String`, booleans by `Bool`.

Field names of the two Lean structures carry a prime (`clear_calls'`,
`muted'`, ...) because the public Rust method names (`clear_calls`,
`muted`, `mute_bot`, `flood_delay`, ...) coincide with the private field
names and Lean does not allow a definition to shadow a projection; every
public method keeps its exact Rust name.
-/

/-- Model of a Rust `f32` value, up to what `==` can observe. -/
inductive F32 where
  | nan : F32
  | negZero : F32
  | finite (q : ℚ) : F32
  | inf (negative : Bool) : F32
deriving DecidableEq, Repr

/-- IEEE-754 equality on `F32`: `NaN` compares unequal to everything
(itself included), and `-0.0` compares equal to `+0.0`. -/
def F32.beq : F32 → F32 → Bool
  | .nan, _ => false
  | _, .nan => false
  | .negZero, .negZero => true
  | .negZero, .finite q => decide (q = 0)
  | .finite q, .negZero => decide (q = 0)
  | .finite p, .finite q => decide (p = q)
  | .inf a, .inf b => a == b
  | .negZero, .inf _ => false
  | .finite _, .inf _ => false
  | .inf _, .negZero => false
  | .inf _, .finite _ => false

instance : BEq F32 := ⟨F32.beq⟩

/-- `const DEFAULT_ASSETS_DIR: &str = "assets";` -/
def DEFAULT_ASSETS_DIR : String := "assets"

/-- The `Configuration` struct: six private fields. -/
structure Configuration where
  clear_calls' : Bool
  muted' : Bool
  flood_delay' : F32
  maintained' : Bool
  poomp_delay' : F32
  assets_directory_path' : String
deriving Repr

/-- `Configuration::new()`. -/
def Configuration.new : Configuration :=
  { clear_calls' := false
    muted' := false
    flood_delay' := F32.finite 0
    maintained' := false
    poomp_delay' := F32.finite 0
    assets_directory_path' := DEFAULT_ASSETS_DIR }

/-- `Configuration::get_clear_calls(&self) -> bool`. -/
def Configuration.get_clear_calls (self : Configuration) : Bool :=
  self.clear_calls'

/-- `Configuration::clear_calls(&mut self, new_value: bool)` (the setter). -/
def Configuration.clear_calls (self : Configuration) (new_value : Bool) :
    Configuration :=
  { self with clear_calls' := new_value }

/-- `Configuration::muted(&self) -> bool`. -/
def Configuration.muted (self : Configuration) : Bool :=
  self.muted'

/-- `Configuration::mute(&mut self, new_value: bool)`. -/
def Configuration.mute (self : Configuration) (new_value : Bool) :
    Configuration :=
  { self with muted' := new_value }

/-- `Configuration::get_flood_delay(&self) -> f32`. -/
def Configuration.get_flood_delay (self : Configuration) : F32 :=
  self.flood_delay'

/-- `Configuration::set_flood_delay(&mut self, new_value: f32)`. -/
def Configuration.set_flood_delay (self : Configuration) (new_value : F32) :
    Configuration :=
  { self with flood_delay' := new_value }

/-- `Configuration::get_maintained(&self) -> bool`. -/
def Configuration.get_maintained (self : Configuration) : Bool :=
  self.maintained'

/-- `Configuration::set_maintained(&mut self, new_value: bool)`. -/
def Configuration.set_maintained (self : Configuration) (new_value : Bool) :
    Configuration :=
  { self with maintained' := new_value }

/-- `Configuration::get_poomp_delay(&self) -> f32`. -/
def Configuration.get_poomp_delay (self : Configuration) : F32 :=
  self.poomp_delay'

/-- `Configuration::set_poomp_delay(&mut self, new_value: f32)`. -/
def Configuration.set_poomp_delay (self : Configuration) (new_value : F32) :
    Configuration :=
  { self with poomp_delay' := new_value }

/-- `Configuration::get_assets_dir(&self) -> String` (returns a clone). -/
def Configuration.get_assets_dir (self : Configuration) : String :=
  self.assets_directory_path'

/-- `Configuration::set_assets_dir(&mut self, new_value: &str)`
(stores `String::from(new_value)`). -/
def Configuration.set_assets_dir (self : Configuration) (new_value : String) :
    Configuration :=
  { self with assets_directory_path' := new_value }

/-- `impl PartialEq for Configuration`: the conjunction of the six
per-field comparisons, floats compared by IEEE `==`, exactly as the
source writes it (left side reads the field, right side calls the
getter). -/
def Configuration.eq (self other : Configuration) : Bool :=
  self.clear_calls' == other.get_clear_calls &&
  self.muted' == other.muted &&
  self.flood_delay' == other.get_flood_delay &&
  self.maintained' == other.get_maintained &&
  self.poomp_delay' == other.get_poomp_delay &&
  self.assets_directory_path' == other.get_assets_dir

/-- `impl Default for Configuration`. -/
def Configuration.default : Configuration := Configuration.new

/-- The `ConfigBuilder` struct: one `Option` per field. -/
structure ConfigBuilder where
  clear_command_calls' : Option Bool
  mute_bot' : Option Bool
  flood_delay' : Option F32
  maintained' : Option Bool
  poomp_delay' : Option F32
  assets_directory_path' : Option String
deriving Repr

/-- `ConfigBuilder::new()`. -/
def ConfigBuilder.new : ConfigBuilder :=
  { clear_command_calls' := none
    mute_bot' := none
    flood_delay' := none
    maintained' := none
    poomp_delay' := none
    assets_directory_path' := none }

/-- `ConfigBuilder::clear_calls(&mut self, new_value: bool)`: stages
`Some(new_value)` and returns the builder. -/
def ConfigBuilder.clear_calls (self : ConfigBuilder) (new_value : Bool) :
    ConfigBuilder :=
  { self with clear_command_calls' := some new_value }

/-- `ConfigBuilder::mute_bot(&mut self, new_value: bool)`. -/
def ConfigBuilder.mute_bot (self : ConfigBuilder) (new_value : Bool) :
    ConfigBuilder :=
  { self with mute_bot' := some new_value }

/-- `ConfigBuilder::flood_delay(&mut self, new_value: Option<f32>)`:
stores the option as given. -/
def ConfigBuilder.flood_delay (self : ConfigBuilder) (new_value : Option F32) :
    ConfigBuilder :=
  { self with flood_delay' := new_value }

/-- `ConfigBuilder::maintained(&mut self, new_value: Option<bool>)`. -/
def ConfigBuilder.maintained (self : ConfigBuilder) (new_value : Option Bool) :
    ConfigBuilder :=
  { self with maintained' := new_value }

/-- `ConfigBuilder::poomp_delay(&mut self, new_value: Option<f32>)`. -/
def ConfigBuilder.poomp_delay (self : ConfigBuilder) (new_value : Option F32) :
    ConfigBuilder :=
  { self with poomp_delay' := new_value }

/-- `ConfigBuilder::assets_directory_path(&mut self, new_value: Option<String>)`. -/
def ConfigBuilder.assets_directory_path (self : ConfigBuilder)
    (new_value : Option String) : ConfigBuilder :=
  { self with assets_directory_path' := new_value }

/-- `ConfigBuilder::build(&self) -> Configuration`: starts from
`Configuration::new()` and applies the corresponding setter for every
staged field, in source order. -/
def ConfigBuilder.build (self : ConfigBuilder) : Configuration :=
  let new_conf := Configuration.new
  let new_conf := match self.clear_command_calls' with
    | some clr => new_conf.clear_calls clr
    | none => new_conf
  let new_conf := match self.mute_bot' with
    | some mute => new_conf.mute mute
    | none => new_conf
  let new_conf := match self.flood_delay' with
    | some delay => new_conf.set_flood_delay delay
    | none => new_conf
  let new_conf := match self.maintained' with
    | some maintained => new_conf.set_maintained maintained
    | none => new_conf
  let new_conf := match self.poomp_delay' with
    | some delay => new_conf.set_poomp_delay delay
    | none => new_conf
  let new_conf := match self.assets_directory_path' with
    | some strpath => new_conf.set_assets_dir strpath
    | none => new_conf
  new_conf

/-! ## Helper lemmas -/

/-- What `build` puts in `clear_calls`: the staged value if set, the
default `false` otherwise. -/
lemma ConfigBuilder.build_clear_calls (b : ConfigBuilder) :
    b.build.clear_calls' = b.clear_command_calls'.getD false := by
  obtain ⟨c, m, f, mt, p, a⟩ := b
  cases c <;> cases m <;> cases f <;> cases mt <;> cases p <;> cases a <;> rfl

/-- What `build` puts in `muted`. -/
lemma ConfigBuilder.build_muted (b : ConfigBuilder) :
    b.build.muted' = b.mute_bot'.getD false := by
  obtain ⟨c, m, f, mt, p, a⟩ := b
  cases c <;> cases m <;> cases f <;> cases mt <;> cases p <;> cases a <;> rfl

/-- What `build` puts in `flood_delay`. -/
lemma ConfigBuilder.build_flood_delay (b : ConfigBuilder) :
    b.build.flood_delay' = b.flood_delay'.getD (F32.finite 0) := by
  obtain ⟨c, m, f, mt, p, a⟩ := b
  cases c <;> cases m <;> cases f <;> cases mt <;> cases p <;> cases a <;> rfl

/-- What `build` puts in `maintained`. -/
lemma ConfigBuilder.build_maintained (b : ConfigBuilder) :
    b.build.maintained' = b.maintained'.getD false := by
  obtain ⟨c, m, f, mt, p, a⟩ := b
  cases c <;> cases m <;> cases f <;> cases mt <;> cases p <;> cases a <;> rfl

/-- What `build` puts in `poomp_delay`. -/
lemma ConfigBuilder.build_poomp_delay (b : ConfigBuilder) :
    b.build.poomp_delay' = b.poomp_delay'.getD (F32.finite 0) := by
  obtain ⟨c, m, f, mt, p, a⟩ := b
  cases c <;> cases m <;> cases f <;> cases mt <;> cases p <;> cases a <;> rfl

/-- What `build` puts in `assets_directory_path`. -/
lemma ConfigBuilder.build_assets (b : ConfigBuilder) :
    b.build.assets_directory_path' =
      b.assets_directory_path'.getD DEFAULT_ASSETS_DIR := by
  obtain ⟨c, m, f, mt, p, a⟩ := b
  cases c <;> cases m <;> cases f <;> cases mt <;> cases p <;> cases a <;> rfl

/-- IEEE equality on `F32` is symmetric. -/
lemma F32.beq_symm (x y : F32) : F32.beq x y = F32.beq y x := by
  cases x <;> cases y <;> simp [F32.beq, eq_comm, Bool.beq_comm]

/-- IEEE equality on `F32` is reflexive away from NaN. -/
lemma F32.beq_refl (x : F32) (h : x ≠ F32.nan) : F32.beq x x = true := by
  cases x with
  | nan => exact absurd rfl h
  | negZero => rfl
  | finite q => simp [F32.beq]
  | inf s => cases s <;> rfl

/-- `Configuration.eq` unfolded to the six per-field comparisons, with
the getters replaced by the fields they read. -/
lemma Configuration.eq_fields (a b : Configuration) :
    Configuration.eq a b = true ↔
      a.clear_calls' = b.clear_calls' ∧ a.muted' = b.muted' ∧
      F32.beq a.flood_delay' b.flood_delay' = true ∧
      a.maintained' = b.maintained' ∧
      F32.beq a.poomp_delay' b.poomp_delay' = true ∧
      a.assets_directory_path' = b.assets_directory_path' := by
  simp [Configuration.eq, Configuration.get_clear_calls, Configuration.muted,
    Configuration.get_flood_delay, Configuration.get_maintained,
    Configuration.get_poomp_delay, Configuration.get_assets_dir,
    BEq.beq, and_assoc]

/-- `Configuration.eq` is symmetric. -/
lemma Configuration.eq_symm (a b : Configuration) :
    Configuration.eq a b = Configuration.eq b a := by
  rw [Bool.eq_iff_iff, Configuration.eq_fields, Configuration.eq_fields]
  constructor <;> rintro ⟨h1, h2, h3, h4, h5, h6⟩ <;>
    exact ⟨h1.symm, h2.symm, by rw [F32.beq_symm]; exact h3, h4.symm,
      by rw [F32.beq_symm]; exact h5, h6.symm⟩

/-- `Configuration.eq` is reflexive when the two float fields are not NaN. -/
lemma Configuration.eq_self (c : Configuration)
    (h1 : c.flood_delay' ≠ F32.nan) (h2 : c.poomp_delay' ≠ F32.nan) :
    Configuration.eq c c = true :=
  (Configuration.eq_fields c c).2
    ⟨rfl, rfl, F32.beq_refl _ h1, rfl, F32.beq_refl _ h2, rfl⟩

/-- Folding a sequence of further `ConfigBuilder::clear_calls` calls. -/
def clearCallsSeq (b : ConfigBuilder) (vs : List Bool) : ConfigBuilder :=
  vs.foldl ConfigBuilder.clear_calls b

/-- Folding a sequence of further `ConfigBuilder::mute_bot` calls. -/
def muteBotSeq (b : ConfigBuilder) (vs : List Bool) : ConfigBuilder :=
  vs.foldl ConfigBuilder.mute_bot b

/-- After `clear_calls` was called at least once, the staged override is
`Some` of the last value passed. -/
lemma clearCallsSeq_staged (vs : List Bool) (b : ConfigBuilder) (w : Bool)
    (h : b.clear_command_calls' = some w) :
    (clearCallsSeq b vs).clear_command_calls' = some (vs.getLastD w) := by
  induction vs generalizing b w with
  | nil => simpa [clearCallsSeq] using h
  | cons v rest ih =>
      rw [List.getLastD_cons]
      exact ih (b.clear_calls v) v rfl

/-- After `mute_bot` was called at least once, the staged override is
`Some` of the last value passed. -/
lemma muteBotSeq_staged (vs : List Bool) (b : ConfigBuilder) (w : Bool)
    (h : b.mute_bot' = some w) :
    (muteBotSeq b vs).mute_bot' = some (vs.getLastD w) := by
  induction vs generalizing b w with
  | nil => simpa [muteBotSeq] using h
  | cons v rest ih =>
      rw [List.getLastD_cons]
      exact ih (b.mute_bot v) v rfl

/-! ## Claim theorems -/

/-- C1: for every field and every value `v`, setting the field to `v` and
then reading it through the getter returns exactly `v`, both directly on a
`Configuration` and when `v` is staged through the corresponding
`ConfigBuilder` method and read from the `Configuration` returned by
`build()`. -/
theorem config_round_trip :
    (∀ (c : Configuration) (v : Bool),
      (c.clear_calls v).get_clear_calls = v) ∧
    (∀ (c : Configuration) (v : Bool), (c.mute v).muted = v) ∧
    (∀ (c : Configuration) (v : F32),
      (c.set_flood_delay v).get_flood_delay = v) ∧
    (∀ (c : Configuration) (v : Bool),
      (c.set_maintained v).get_maintained = v) ∧
    (∀ (c : Configuration) (v : F32),
      (c.set_poomp_delay v).get_poomp_delay = v) ∧
    (∀ (c : Configuration) (v : String),
      (c.set_assets_dir v).get_assets_dir = v) ∧
    (∀ (b : ConfigBuilder) (v : Bool),
      ((b.clear_calls v).build).get_clear_calls = v) ∧
    (∀ (b : ConfigBuilder) (v : Bool), ((b.mute_bot v).build).muted = v) ∧
    (∀ (b : ConfigBuilder) (v : F32),
      ((b.flood_delay (some v)).build).get_flood_delay = v) ∧
    (∀ (b : ConfigBuilder) (v : Bool),
      ((b.maintained (some v)).build).get_maintained = v) ∧
    (∀ (b : ConfigBuilder) (v : F32),
      ((b.poomp_delay (some v)).build).get_poomp_delay = v) ∧
    (∀ (b : ConfigBuilder) (v : String),
      ((b.assets_directory_path (some v)).build).get_assets_dir = v) := by
  refine ⟨fun _ _ => rfl, fun _ _ => rfl, fun _ _ => rfl, fun _ _ => rfl,
    fun _ _ => rfl, fun _ _ => rfl, ?_, ?_, ?_, ?_, ?_, ?_⟩ <;> intro b v
  · simp [Configuration.get_clear_calls, ConfigBuilder.build_clear_calls,
      ConfigBuilder.clear_calls]
  · simp [Configuration.muted, ConfigBuilder.build_muted,
      ConfigBuilder.mute_bot]
  · simp [Configuration.get_flood_delay, ConfigBuilder.build_flood_delay,
      ConfigBuilder.flood_delay]
  · simp [Configuration.get_maintained, ConfigBuilder.build_maintained,
      ConfigBuilder.maintained]
  · simp [Configuration.get_poomp_delay, ConfigBuilder.build_poomp_delay,
      ConfigBuilder.poomp_delay]
  · simp [Configuration.get_assets_dir, ConfigBuilder.build_assets,
      ConfigBuilder.assets_directory_path]

/-- C2: `Configuration::new()` produces the all-defaults instance
(`clear_calls = false`, `muted = false`, `flood_delay = 0.0`,
`maintained = false`, `poomp_delay = 0.0`,
`assets_directory_path = "assets"`), and it is exactly the `Configuration`
produced by `ConfigBuilder::new().build()` with no overrides. -/
theorem config_new_defaults :
    Configuration.new.get_clear_calls = false ∧
    Configuration.new.muted = false ∧
    Configuration.new.get_flood_delay = F32.finite 0 ∧
    Configuration.new.get_maintained = false ∧
    Configuration.new.get_poomp_delay = F32.finite 0 ∧
    Configuration.new.get_assets_dir = "assets" ∧
    ConfigBuilder.new.build = Configuration.new :=
  ⟨rfl, rfl, rfl, rfl, rfl, rfl, rfl⟩

/-- C3 (counterexample): equality of `Configuration` is NOT reflexive: a
configuration whose `flood_delay` is NaN compares unequal to itself,
because the `PartialEq` implementation compares the `f32` fields with
IEEE `==` and `NaN == NaN` is false. -/
theorem config_eq_nan_not_refl :
    Configuration.eq (Configuration.new.set_flood_delay F32.nan)
      (Configuration.new.set_flood_delay F32.nan) = false := by decide

/-- C3 (amended): equality of `Configuration` is the conjunction of the
six per-field comparisons and is symmetric; it is reflexive — and two
configurations with identical field values are equal — provided the two
float fields are not NaN. -/
theorem config_eq_symm_and_refl :
    (∀ a b : Configuration, Configuration.eq a b = true ↔
      a.clear_calls' = b.clear_calls' ∧ a.muted' = b.muted' ∧
      F32.beq a.flood_delay' b.flood_delay' = true ∧
      a.maintained' = b.maintained' ∧
      F32.beq a.poomp_delay' b.poomp_delay' = true ∧
      a.assets_directory_path' = b.assets_directory_path') ∧
    (∀ a b : Configuration, Configuration.eq a b = Configuration.eq b a) ∧
    (∀ c : Configuration, c.flood_delay' ≠ F32.nan →
      c.poomp_delay' ≠ F32.nan → Configuration.eq c c = true) :=
  ⟨Configuration.eq_fields, Configuration.eq_symm, Configuration.eq_self⟩

/-- C3 (witness): the reflexivity part applied at the default
configuration, whose float fields are `+0.0`, not NaN. -/
theorem config_eq_symm_and_refl_witness :
    Configuration.eq Configuration.new Configuration.new = true :=
  config_eq_symm_and_refl.2.2 Configuration.new (by decide) (by decide)

/-- C4 (counterexample): two configurations that differ in exactly one
field (`flood_delay`: `+0.0` in one, `-0.0` in the other, the other five
fields identical) are nevertheless EQUAL, because IEEE `==` treats the
two zeros as equal. -/
theorem config_one_field_diff_equal_cex :
    Configuration.new.flood_delay' ≠
      (Configuration.new.set_flood_delay F32.negZero).flood_delay' ∧
    Configuration.new.clear_calls' =
      (Configuration.new.set_flood_delay F32.negZero).clear_calls' ∧
    Configuration.new.muted' =
      (Configuration.new.set_flood_delay F32.negZero).muted' ∧
    Configuration.new.maintained' =
      (Configuration.new.set_flood_delay F32.negZero).maintained' ∧
    Configuration.new.poomp_delay' =
      (Configuration.new.set_flood_delay F32.negZero).poomp_delay' ∧
    Configuration.new.assets_directory_path' =
      (Configuration.new.set_flood_delay F32.negZero).assets_directory_path' ∧
    Configuration.eq Configuration.new
      (Configuration.new.set_flood_delay F32.negZero) = true := by decide

/-- C4 (amended): two configurations that differ in exactly one field are
unequal, provided the two differing values compare unequal under the
code's per-field comparison (for the bool and String fields any two
distinct values do; for the float fields this excludes IEEE-equal pairs
such as `+0.0` vs `-0.0`). -/
theorem config_one_field_diff_unequal :
    (∀ a b : Configuration,
      a.muted' = b.muted' → a.flood_delay' = b.flood_delay' →
      a.maintained' = b.maintained' → a.poomp_delay' = b.poomp_delay' →
      a.assets_directory_path' = b.assets_directory_path' →
      a.clear_calls' ≠ b.clear_calls' → Configuration.eq a b = false) ∧
    (∀ a b : Configuration,
      a.clear_calls' = b.clear_calls' → a.flood_delay' = b.flood_delay' →
      a.maintained' = b.maintained' → a.poomp_delay' = b.poomp_delay' →
      a.assets_directory_path' = b.assets_directory_path' →
      a.muted' ≠ b.muted' → Configuration.eq a b = false) ∧
    (∀ a b : Configuration,
      a.clear_calls' = b.clear_calls' → a.muted' = b.muted' →
      a.maintained' = b.maintained' → a.poomp_delay' = b.poomp_delay' →
      a.assets_directory_path' = b.assets_directory_path' →
      F32.beq a.flood_delay' b.flood_delay' = false →
      Configuration.eq a b = false) ∧
    (∀ a b : Configuration,
      a.clear_calls' = b.clear_calls' → a.muted' = b.muted' →
      a.flood_delay' = b.flood_delay' → a.poomp_delay' = b.poomp_delay' →
      a.assets_directory_path' = b.assets_directory_path' →
      a.maintained' ≠ b.maintained' → Configuration.eq a b = false) ∧
    (∀ a b : Configuration,
      a.clear_calls' = b.clear_calls' → a.muted' = b.muted' →
      a.flood_delay' = b.flood_delay' → a.maintained' = b.maintained' →
      a.assets_directory_path' = b.assets_directory_path' →
      F32.beq a.poomp_delay' b.poomp_delay' = false →
      Configuration.eq a b = false) ∧
    (∀ a b : Configuration,
      a.clear_calls' = b.clear_calls' → a.muted' = b.muted' →
      a.flood_delay' = b.flood_delay' → a.maintained' = b.maintained' →
      a.poomp_delay' = b.poomp_delay' →
      a.assets_directory_path' ≠ b.assets_directory_path' →
      Configuration.eq a b = false) := by
  refine ⟨?_, ?_, ?_, ?_, ?_, ?_⟩ <;> intro a b _ _ _ _ _ hne <;>
    (cases h : Configuration.eq a b
     case false => rfl)
  · exact absurd ((Configuration.eq_fields a b).1 h).1 hne
  · exact absurd ((Configuration.eq_fields a b).1 h).2.1 hne
  · have h3 := ((Configuration.eq_fields a b).1 h).2.2.1
    rw [hne] at h3
    exact (Bool.false_ne_true h3).elim
  · exact absurd ((Configuration.eq_fields a b).1 h).2.2.2.1 hne
  · have h5 := ((Configuration.eq_fields a b).1 h).2.2.2.2.1
    rw [hne] at h5
    exact (Bool.false_ne_true h5).elim
  · exact absurd ((Configuration.eq_fields a b).1 h).2.2.2.2.2 hne

/-- C4 (witness): the amended statement at two concrete configurations
differing only in `clear_calls`. -/
theorem config_one_field_diff_unequal_witness :
    Configuration.eq Configuration.new
      (Configuration.new.clear_calls true) = false :=
  config_one_field_diff_unequal.1 Configuration.new
    (Configuration.new.clear_calls true) rfl rfl rfl rfl rfl (by decide)

/-- C5 (counterexample): a builder that stages `flood_delay = NaN`
produces, on two calls to `build()`, two configurations that the code's
own equality declares UNEQUAL (NaN compares unequal to itself), so
"calling build() twice yields two equal Configuration values" fails as
stated. -/
theorem build_twice_nan_cex :
    Configuration.eq (ConfigBuilder.new.flood_delay (some F32.nan)).build
      (ConfigBuilder.new.flood_delay (some F32.nan)).build = false := by
  decide

/-- C5 (amended): `build()` is a pure function of the builder state alone
(the builder is not consumed or changed, so two calls yield structurally
identical configurations), and the two results also compare equal under
the code's equality provided neither float field of the built
configuration is NaN. -/
theorem build_twice_eq (b : ConfigBuilder)
    (h1 : b.flood_delay'.getD (F32.finite 0) ≠ F32.nan)
    (h2 : b.poomp_delay'.getD (F32.finite 0) ≠ F32.nan) :
    b.build = b.build ∧ Configuration.eq b.build b.build = true := by
  refine ⟨rfl, Configuration.eq_self _ ?_ ?_⟩
  · rw [ConfigBuilder.build_flood_delay]; exact h1
  · rw [ConfigBuilder.build_poomp_delay]; exact h2

/-- C5 (witness): the amended statement at the all-unset builder. -/
theorem build_twice_eq_witness :
    ConfigBuilder.new.build = ConfigBuilder.new.build ∧
    Configuration.eq ConfigBuilder.new.build ConfigBuilder.new.build =
      true :=
  build_twice_eq ConfigBuilder.new (by decide) (by decide)

/-- C6: for the optional-accepting builder methods a later call for the
same field overwrites the earlier one, and passing `None` clears any
previously staged override; in particular `flood_delay(Some(1.0))` then
`flood_delay(Some(2.0))` builds `flood_delay == 2.0`, and
`flood_delay(Some(1.0))` then `flood_delay(None)` builds
`flood_delay == 0.0`, the default. -/
theorem builder_last_write_wins :
    (∀ (b : ConfigBuilder) (o o' : Option F32),
      (b.flood_delay o).flood_delay o' = b.flood_delay o') ∧
    (∀ (b : ConfigBuilder) (o o' : Option Bool),
      (b.maintained o).maintained o' = b.maintained o') ∧
    (∀ (b : ConfigBuilder) (o o' : Option F32),
      (b.poomp_delay o).poomp_delay o' = b.poomp_delay o') ∧
    (∀ (b : ConfigBuilder) (o o' : Option String),
      (b.assets_directory_path o).assets_directory_path o' =
        b.assets_directory_path o') ∧
    (∀ b : ConfigBuilder,
      ((b.flood_delay (some (F32.finite 1))).flood_delay
        (some (F32.finite 2))).build.get_flood_delay = F32.finite 2) ∧
    (∀ b : ConfigBuilder,
      ((b.flood_delay (some (F32.finite 1))).flood_delay
        none).build.get_flood_delay = F32.finite 0) ∧
    (∀ (b : ConfigBuilder) (v : F32),
      ((b.flood_delay (some v)).flood_delay none).build.get_flood_delay =
        F32.finite 0) := by
  refine ⟨fun _ _ _ => rfl, fun _ _ _ => rfl, fun _ _ _ => rfl,
    fun _ _ _ => rfl, ?_, ?_, ?_⟩
  · intro b
    simp [Configuration.get_flood_delay, ConfigBuilder.build_flood_delay,
      ConfigBuilder.flood_delay]
  · intro b
    simp [Configuration.get_flood_delay, ConfigBuilder.build_flood_delay,
      ConfigBuilder.flood_delay]
  · intro b v
    simp [Configuration.get_flood_delay, ConfigBuilder.build_flood_delay,
      ConfigBuilder.flood_delay]

/-- C7: the spec's end-to-end example: the builder path
`ConfigBuilder::new().clear_calls(true).poomp_delay(Some(30.0)).build()`
yields the same `Configuration` — both structurally and under the code's
equality — as the direct path `Configuration::new()` followed by
`clear_calls(true)` and `set_poomp_delay(30.0)`. -/
theorem builder_matches_direct_path :
    ((ConfigBuilder.new.clear_calls true).poomp_delay
        (some (F32.finite 30))).build =
      (Configuration.new.clear_calls true).set_poomp_delay (F32.finite 30) ∧
    Configuration.eq
      ((ConfigBuilder.new.clear_calls true).poomp_delay
        (some (F32.finite 30))).build
      ((Configuration.new.clear_calls true).set_poomp_delay
        (F32.finite 30)) = true :=
  ⟨rfl, by decide⟩

/-- C8: each setter unconditionally overwrites its own field and leaves
the other five fields unchanged, and each getter is pure, returning the
current value of its field (the configuration itself is untouched, since
getters are functions of the configuration). -/
theorem setters_frame_getters_pure :
    (∀ (c : Configuration) (v : Bool),
      (c.clear_calls v).clear_calls' = v ∧
      (c.clear_calls v).muted' = c.muted' ∧
      (c.clear_calls v).flood_delay' = c.flood_delay' ∧
      (c.clear_calls v).maintained' = c.maintained' ∧
      (c.clear_calls v).poomp_delay' = c.poomp_delay' ∧
      (c.clear_calls v).assets_directory_path' =
        c.assets_directory_path') ∧
    (∀ (c : Configuration) (v : Bool),
      (c.mute v).muted' = v ∧
      (c.mute v).clear_calls' = c.clear_calls' ∧
      (c.mute v).flood_delay' = c.flood_delay' ∧
      (c.mute v).maintained' = c.maintained' ∧
      (c.mute v).poomp_delay' = c.poomp_delay' ∧
      (c.mute v).assets_directory_path' = c.assets_directory_path') ∧
    (∀ (c : Configuration) (v : F32),
      (c.set_flood_delay v).flood_delay' = v ∧
      (c.set_flood_delay v).clear_calls' = c.clear_calls' ∧
      (c.set_flood_delay v).muted' = c.muted' ∧
      (c.set_flood_delay v).maintained' = c.maintained' ∧
      (c.set_flood_delay v).poomp_delay' = c.poomp_delay' ∧
      (c.set_flood_delay v).assets_directory_path' =
        c.assets_directory_path') ∧
    (∀ (c : Configuration) (v : Bool),
      (c.set_maintained v).maintained' = v ∧
      (c.set_maintained v).clear_calls' = c.clear_calls' ∧
      (c.set_maintained v).muted' = c.muted' ∧
      (c.set_maintained v).flood_delay' = c.flood_delay' ∧
      (c.set_maintained v).poomp_delay' = c.poomp_delay' ∧
      (c.set_maintained v).assets_directory_path' =
        c.assets_directory_path') ∧
    (∀ (c : Configuration) (v : F32),
      (c.set_poomp_delay v).poomp_delay' = v ∧
      (c.set_poomp_delay v).clear_calls' = c.clear_calls' ∧
      (c.set_poomp_delay v).muted' = c.muted' ∧
      (c.set_poomp_delay v).flood_delay' = c.flood_delay' ∧
      (c.set_poomp_delay v).maintained' = c.maintained' ∧
      (c.set_poomp_delay v).assets_directory_path' =
        c.assets_directory_path') ∧
    (∀ (c : Configuration) (v : String),
      (c.set_assets_dir v).assets_directory_path' = v ∧
      (c.set_assets_dir v).clear_calls' = c.clear_calls' ∧
      (c.set_assets_dir v).muted' = c.muted' ∧
      (c.set_assets_dir v).flood_delay' = c.flood_delay' ∧
      (c.set_assets_dir v).maintained' = c.maintained' ∧
      (c.set_assets_dir v).poomp_delay' = c.poomp_delay') ∧
    (∀ c : Configuration,
      c.get_clear_calls = c.clear_calls' ∧ c.muted = c.muted' ∧
      c.get_flood_delay = c.flood_delay' ∧
      c.get_maintained = c.maintained' ∧
      c.get_poomp_delay = c.poomp_delay' ∧
      c.get_assets_dir = c.assets_directory_path') :=
  ⟨fun _ _ => ⟨rfl, rfl, rfl, rfl, rfl, rfl⟩,
   fun _ _ => ⟨rfl, rfl, rfl, rfl, rfl, rfl⟩,
   fun _ _ => ⟨rfl, rfl, rfl, rfl, rfl, rfl⟩,
   fun _ _ => ⟨rfl, rfl, rfl, rfl, rfl, rfl⟩,
   fun _ _ => ⟨rfl, rfl, rfl, rfl, rfl, rfl⟩,
   fun _ _ => ⟨rfl, rfl, rfl, rfl, rfl, rfl⟩,
   fun _ => ⟨rfl, rfl, rfl, rfl, rfl, rfl⟩⟩

/-- C9: every operation of the fragment — `Configuration::new()`, every
getter, every setter, every `ConfigBuilder` method, and `build()` — is
total and infallible: for every input of its declared type it returns a
result, including degenerate inputs (a negative delay, an empty assets
path, an entirely unset builder). -/
theorem operations_total :
    (∃ c, Configuration.new = c) ∧
    (∀ (c : Configuration) (v : Bool), ∃ r, c.clear_calls v = r) ∧
    (∀ (c : Configuration) (v : Bool), ∃ r, c.mute v = r) ∧
    (∀ (c : Configuration) (v : F32), ∃ r, c.set_flood_delay v = r) ∧
    (∀ (c : Configuration) (v : Bool), ∃ r, c.set_maintained v = r) ∧
    (∀ (c : Configuration) (v : F32), ∃ r, c.set_poomp_delay v = r) ∧
    (∀ (c : Configuration) (v : String), ∃ r, c.set_assets_dir v = r) ∧
    (∀ c : Configuration, ∃ v, c.get_clear_calls = v) ∧
    (∀ c : Configuration, ∃ v, c.muted = v) ∧
    (∀ c : Configuration, ∃ v, c.get_flood_delay = v) ∧
    (∀ c : Configuration, ∃ v, c.get_maintained = v) ∧
    (∀ c : Configuration, ∃ v, c.get_poomp_delay = v) ∧
    (∀ c : Configuration, ∃ v, c.get_assets_dir = v) ∧
    (∀ (b : ConfigBuilder) (v : Bool), ∃ r, b.clear_calls v = r) ∧
    (∀ (b : ConfigBuilder) (v : Bool), ∃ r, b.mute_bot v = r) ∧
    (∀ (b : ConfigBuilder) (v : Option F32), ∃ r, b.flood_delay v = r) ∧
    (∀ (b : ConfigBuilder) (v : Option Bool), ∃ r, b.maintained v = r) ∧
    (∀ (b : ConfigBuilder) (v : Option F32), ∃ r, b.poomp_delay v = r) ∧
    (∀ (b : ConfigBuilder) (v : Option String),
      ∃ r, b.assets_directory_path v = r) ∧
    (∀ b : ConfigBuilder, ∃ c, b.build = c) ∧
    (ConfigBuilder.new.build = Configuration.new) ∧
    ((Configuration.new.set_flood_delay
        (F32.finite (-5))).get_flood_delay = F32.finite (-5)) ∧
    ((Configuration.new.set_assets_dir "").get_assets_dir = "") :=
  ⟨⟨_, rfl⟩, fun _ _ => ⟨_, rfl⟩, fun _ _ => ⟨_, rfl⟩, fun _ _ => ⟨_, rfl⟩,
   fun _ _ => ⟨_, rfl⟩, fun _ _ => ⟨_, rfl⟩, fun _ _ => ⟨_, rfl⟩,
   fun _ => ⟨_, rfl⟩, fun _ => ⟨_, rfl⟩, fun _ => ⟨_, rfl⟩,
   fun _ => ⟨_, rfl⟩, fun _ => ⟨_, rfl⟩, fun _ => ⟨_, rfl⟩,
   fun _ _ => ⟨_, rfl⟩, fun _ _ => ⟨_, rfl⟩, fun _ _ => ⟨_, rfl⟩,
   fun _ _ => ⟨_, rfl⟩, fun _ _ => ⟨_, rfl⟩, fun _ _ => ⟨_, rfl⟩,
   fun _ => ⟨_, rfl⟩, rfl, rfl, rfl⟩

/-- C10: the bare-value builder methods `clear_calls` and `mute_bot` can
only set an override, never clear one: once the method has been called at
least once (staged value `Some w`), any further sequence `vs` of calls to
the same method leaves the corresponding field of every built
configuration equal to the last value passed (`w` if the sequence is
empty) — the built-in default can only reappear by passing it
explicitly. -/
theorem bare_builder_methods_sticky :
    (∀ (b : ConfigBuilder) (w : Bool) (vs : List Bool),
      b.clear_command_calls' = some w →
      (clearCallsSeq b vs).build.get_clear_calls = vs.getLastD w) ∧
    (∀ (b : ConfigBuilder) (w : Bool) (vs : List Bool),
      b.mute_bot' = some w →
      (muteBotSeq b vs).build.muted = vs.getLastD w) := by
  constructor
  · intro b w vs h
    rw [Configuration.get_clear_calls, ConfigBuilder.build_clear_calls,
      clearCallsSeq_staged vs b w h, Option.getD_some]
  · intro b w vs h
    rw [Configuration.muted, ConfigBuilder.build_muted,
      muteBotSeq_staged vs b w h, Option.getD_some]

/-- C10 (witness): the statement applied at a builder on which
`clear_calls(true)` was called, once with no further calls and once with
the further sequence `mute_bot(false)`, `mute_bot(true)` on the
`mute_bot` side. -/
theorem bare_builder_methods_sticky_witness :
    (clearCallsSeq (ConfigBuilder.new.clear_calls true)
        []).build.get_clear_calls = true ∧
    (muteBotSeq (ConfigBuilder.new.mute_bot true)
        [false, true]).build.muted = true := by
  have h1 := bare_builder_methods_sticky.1
    (ConfigBuilder.new.clear_calls true) true [] rfl
  have h2 := bare_builder_methods_sticky.2
    (ConfigBuilder.new.mute_bot true) true [false, true] rfl
  exact ⟨h1, h2⟩
